import Mathlib

/-!
Verification of the stepwiseAI goal-setter backend (Python) against its
natural-language specification. The Python sources are shallowly embedded:
message dictionaries and langchain message objects become the `Msg`
inductive, JSON values become `Json`, `json.loads` becomes `Json.parse?`
(a fuel-based parser), external effects (the LLM backend, the database
tools, `uuid.uuid4`, `datetime.now`) become an explicit `Env` record, and
Python exceptions become `Except String`.
-/

namespace StepwiseAI

/-! ### JSON values (the result of Python json.loads) -/

inductive Json where
  | null
  | bool (b : Bool)
  | num (n : Int)
  | str (s : String)
  | arr (elems : List Json)
  | obj (fields : List (String × Json))

/-- Python dict key membership test: k in d. -/
def hasKey (l : List (String × Json)) (k : String) : Bool :=
  (List.lookup k l).isSome

/-- Python dict assignment d[k] = v: replaces the value in place if the key
exists, otherwise appends the binding. -/
def assocSet {α : Type} : List (String × α) → String → α → List (String × α)
  | [], k, v => [(k, v)]
  | (k', v') :: rest, k, v =>
    if k' = k then (k, v) :: rest else (k', v') :: assocSet rest k v

/-- Python d.pop(k, default): returns the popped value (if any) together with
the remaining bindings. -/
def popKey {α : Type} : List (String × α) → String → Option α × List (String × α)
  | [], _ => (none, [])
  | (k', v') :: rest, k =>
    if k' = k then (some v', rest)
    else
      let p := popKey rest k
      (p.1, (k', v') :: p.2)

/-- Python truthiness of a JSON-decoded value. -/
def jsonTruthy : Json → Bool
  | Json.null => false
  | Json.bool b => b
  | Json.num n => n ≠ 0
  | Json.str s => s ≠ ""
  | Json.arr xs => ¬ xs.isEmpty
  | Json.obj fs => ¬ fs.isEmpty

def lbrace : Char := Char.ofNat 123
def rbrace : Char := Char.ofNat 125

/-- Minimal JSON string escaping, as json.dumps performs on the strings the
handlers serialize. -/
def escapeChars : List Char → List Char
  | [] => []
  | c :: rest =>
    if c = '"' then '\\' :: '"' :: escapeChars rest
    else if c = '\\' then '\\' :: '\\' :: escapeChars rest
    else if c = '\n' then '\\' :: 'n' :: escapeChars rest
    else if c = '\t' then '\\' :: 't' :: escapeChars rest
    else if c = '\r' then '\\' :: 'r' :: escapeChars rest
    else c :: escapeChars rest

mutual

/-- Embeds Python json.dumps with its default separators. -/
def jsonDumps : Json → String
  | Json.null => "null"
  | Json.bool true => "true"
  | Json.bool false => "false"
  | Json.num n => toString n
  | Json.str s => "\"" ++ String.mk (escapeChars s.data) ++ "\""
  | Json.arr xs => "[" ++ jsonDumpsList xs ++ "]"
  | Json.obj fs => String.mk [lbrace] ++ jsonDumpsFields fs ++ String.mk [rbrace]

def jsonDumpsList : List Json → String
  | [] => ""
  | [x] => jsonDumps x
  | x :: xs => jsonDumps x ++ ", " ++ jsonDumpsList xs

def jsonDumpsFields : List (String × Json) → String
  | [] => ""
  | [(k, v)] => "\"" ++ String.mk (escapeChars k.data) ++ "\": " ++ jsonDumps v
  | (k, v) :: fs =>
      "\"" ++ String.mk (escapeChars k.data) ++ "\": " ++ jsonDumps v ++ ", " ++ jsonDumpsFields fs

end

/-- Python str() applied to a JSON-decoded value, as used inside f-strings.
For containers Python renders with repr quotes; those corner cases are only
display text, rendered here with jsonDumps. -/
def pyStr : Json → String
  | Json.str s => s
  | Json.num n => toString n
  | Json.bool true => "True"
  | Json.bool false => "False"
  | Json.null => "None"
  | Json.arr xs => jsonDumps (Json.arr xs)
  | Json.obj fs => jsonDumps (Json.obj fs)

/-! ### A small JSON parser embedding Python json.loads.
Floats, exponents and unicode escapes are not needed by any handler input
modelled here and make the parse fail instead. -/

def skipWs : List Char → List Char
  | [] => []
  | c :: rest =>
    if c = ' ' ∨ c = '\t' ∨ c = '\n' ∨ c = '\r' then skipWs rest else c :: rest

def escTable : List (Char × Char) :=
  [('"', '"'), ('\\', '\\'), ('/', '/'), ('n', '\n'), ('t', '\t'), ('r', '\r'),
   ('b', Char.ofNat 8), ('f', Char.ofNat 12)]

def decodeEsc (e : Char) : Option Char := List.lookup e escTable

def parseStrBody : List Char → Option (List Char × List Char)
  | [] => none
  | c :: rest =>
    if c = '"' then some ([], rest)
    else if c = '\\' then
      match rest with
      | [] => none
      | e :: rest2 =>
        match decodeEsc e with
        | none => none
        | some ch => (parseStrBody rest2).map (fun p => (ch :: p.1, p.2))
    else (parseStrBody rest).map (fun p => (c :: p.1, p.2))

/-- Parse a (strict JSON, no leading zeros) run of digits. -/
def parseNum (cs : List Char) : Option (Nat × List Char) :=
  let ds := cs.takeWhile Char.isDigit
  if ds.isEmpty then none
  else if ds.length > 1 ∧ ds.headD '0' = '0' then none
  else some (ds.foldl (fun n c => n * 10 + (c.toNat - 48)) 0, cs.drop ds.length)

mutual

def parseVal : Nat → List Char → Option (Json × List Char)
  | 0, _ => none
  | fuel + 1, cs =>
    match skipWs cs with
    | [] => none
    | c :: rest =>
      if c = '"' then
        (parseStrBody rest).map (fun p => (Json.str (String.mk p.1), p.2))
      else if c = '[' then
        match skipWs rest with
        | ']' :: r2 => some (Json.arr [], r2)
        | cs2 => (parseElems fuel cs2).map (fun p => (Json.arr p.1, p.2))
      else if c = lbrace then
        match skipWs rest with
        | c2 :: r2 =>
          if c2 = rbrace then some (Json.obj [], r2)
          else (parseMembers fuel (c2 :: r2)).map (fun p => (Json.obj p.1, p.2))
        | [] => none
      else if c = '-' then
        (parseNum rest).map (fun p => (Json.num (-(p.1 : Int)), p.2))
      else if c.isDigit then
        (parseNum (c :: rest)).map (fun p => (Json.num (p.1 : Int), p.2))
      else if ['t', 'r', 'u', 'e'].isPrefixOf (c :: rest) then
        some (Json.bool true, (c :: rest).drop 4)
      else if ['f', 'a', 'l', 's', 'e'].isPrefixOf (c :: rest) then
        some (Json.bool false, (c :: rest).drop 5)
      else if ['n', 'u', 'l', 'l'].isPrefixOf (c :: rest) then
        some (Json.null, (c :: rest).drop 4)
      else none

def parseElems : Nat → List Char → Option (List Json × List Char)
  | 0, _ => none
  | fuel + 1, cs =>
    match parseVal fuel cs with
    | none => none
    | some (v, r) =>
      match skipWs r with
      | ',' :: r2 => (parseElems fuel r2).map (fun p => (v :: p.1, p.2))
      | ']' :: r2 => some ([v], r2)
      | _ => none

def parseMembers : Nat → List Char → Option (List (String × Json) × List Char)
  | 0, _ => none
  | fuel + 1, cs =>
    match skipWs cs with
    | '"' :: r0 =>
      match parseStrBody r0 with
      | none => none
      | some (k, r1) =>
        match skipWs r1 with
        | ':' :: r2 =>
          match parseVal fuel r2 with
          | none => none
          | some (v, r3) =>
            match skipWs r3 with
            | ',' :: r4 =>
              (parseMembers fuel r4).map (fun p => ((String.mk k, v) :: p.1, p.2))
            | c5 :: r5 =>
              if c5 = rbrace then some ([(String.mk k, v)], r5) else none
            | [] => none
        | _ => none
    | _ => none

end

/-- Embeds Python json.loads: some parsed value, or none on
json.JSONDecodeError. -/
def Json.parse? (s : String) : Option Json :=
  match parseVal (2 * s.length + 2) s.data with
  | some (j, rest) => if (skipWs rest).isEmpty then some j else none
  | none => none

/-! ### String helpers: Python str.count and the in operator -/

def countSub : Nat → List Char → List Char → Nat
  | 0, _, _ => 0
  | _ + 1, [], _ => 0
  | fuel + 1, c :: rest, pat =>
    if pat.isPrefixOf (c :: rest) then
      match pat with
      | [] => 0
      | _ :: patRest => 1 + countSub fuel (rest.drop patRest.length) pat
    else countSub fuel rest pat

/-- Python s.count(pat): non-overlapping occurrence count (pat nonempty in
every use here). -/
def strCount (s pat : String) : Nat := countSub s.length s.data pat.data

/-- Python pat in s, for nonempty pat. -/
def containsSub (s pat : String) : Bool := 0 < strCount s pat

def isPyWs (c : Char) : Bool :=
  c = ' ' ∨ c = '\t' ∨ c = '\n' ∨ c = '\r' ∨ c = Char.ofNat 11 ∨ c = Char.ofNat 12

/-- Python s.strip(). -/
def pyStrip (s : String) : String :=
  String.mk (((s.data.dropWhile isPyWs).reverse.dropWhile isPyWs).reverse)

/-- Python s.lower() (ASCII suffices for the keyword sets used here). -/
def pyLower (s : String) : String := String.mk (s.data.map Char.toLower)

/-- Python sep.join(xs). -/
def joinWith (sep : String) : List String → String
  | [] => ""
  | [x] => x
  | x :: xs => x ++ sep ++ joinWith sep xs

/-! ### Dates: datetime.strptime(s, "%Y-%m-%d") and timedelta arithmetic -/

/-- Python s.split(sep) for a single-character separator (keeps empty
pieces). -/
def splitOnChar (sep : Char) : List Char → List (List Char)
  | [] => [[]]
  | c :: rest =>
    let r := splitOnChar sep rest
    if c = sep then [] :: r
    else
      match r with
      | [] => [[c]]
      | h :: t => (c :: h) :: t

def isDigits (cs : List Char) : Bool := ¬ cs.isEmpty ∧ cs.all Char.isDigit

def digitsToNat (cs : List Char) : Nat :=
  cs.foldl (fun n c => n * 10 + (c.toNat - 48)) 0

def daysInMonth (y m : Nat) : Nat :=
  if m = 2 then
    if (y % 4 = 0 ∧ y % 100 ≠ 0) ∨ y % 400 = 0 then 29 else 28
  else if m = 4 ∨ m = 6 ∨ m = 9 ∨ m = 11 then 30
  else 31

/-- Days since 1970-01-01 of a civil date (Hinnant's algorithm); year ≥ 1
in every use. -/
def daysFromCivil (y m d : Nat) : Int :=
  let yi : Int := if m ≤ 2 then (y : Int) - 1 else (y : Int)
  let era : Int := yi / 400
  let yoe : Int := yi - era * 400
  let mp : Int := ((m : Int) + 9) % 12
  let doy : Int := (153 * mp + 2) / 5 + (d : Int) - 1
  let doe : Int := yoe * 365 + yoe / 4 - yoe / 100 + doy
  era * 146097 + doe - 719468

/-- Embeds datetime.strptime(s, "%Y-%m-%d"): %Y requires exactly four
digits, %m and %d one or two, and the fields must form a valid calendar
date (year ≥ 1). The result is the date as whole days since 1970-01-01. -/
def strptimeYMD (s : String) : Option Int :=
  match splitOnChar '-' s.data with
  | [ys, ms, ds] =>
    if isDigits ys ∧ ys.length = 4 ∧ isDigits ms ∧ ms.length ≤ 2 ∧
        isDigits ds ∧ ds.length ≤ 2 then
      let y := digitsToNat ys
      let m := digitsToNat ms
      let d := digitsToNat ds
      if 1 ≤ y ∧ 1 ≤ m ∧ m ≤ 12 ∧ 1 ≤ d ∧ d ≤ daysInMonth y m then
        some (daysFromCivil y m d)
      else none
    else none
  | _ => none

/-- Embeds the deadline-to-days computation shared by tools.add_goal
(tools.py lines 81-89) and goal_action_node (nodes.py lines 363-371):
days = max(1, (strptime(deadline, "%Y-%m-%d") - datetime.now()).days) with a
default of 30 when the deadline is empty or fails to parse. `nowSec` is
datetime.now() as seconds since 1970-01-01; timedelta.days floors, hence
Int.fdiv. -/
def add_goal_days (deadline : String) (nowSec : Int) : Int :=
  if deadline = "" then 30
  else
    match strptimeYMD deadline with
    | none => 30
    | some dl => max 1 (Int.fdiv (dl * 86400 - nowSec) 86400)

/-! ### Data model: messages, goals, session state (src/app/schema.py and the
message shapes used by src/app/nodes.py) -/

/-- A requested tool invocation as carried on an AIMessage or in a
constructed message dict. -/
structure ToolCallRec where
  name : String
  args : List (String × Json)
  id : String

/-- A plain dict message. Absent keys are `none`; `is_fallback` models
d.get("is_fallback", False). -/
structure DictMsg where
  role : Option String
  content : Option String
  is_fallback : Bool
  tool_call_id : Option String
  tool_calls : Option (List ToolCallRec)

/-- The message forms flowing through the graph: langchain HumanMessage,
AIMessage and ToolMessage objects, and plain dicts. -/
inductive Msg where
  | human (content : String)
  | ai (content : String) (tool_calls : List ToolCallRec)
  | toolMsg (content : String) (name : String) (tool_call_id : String)
  | dict (d : DictMsg)

/-- The goal dict built by goal_action_node (nodes.py lines 374-381); `id`
is set only after a successful add_goal tool response. -/
structure Goal where
  title : String
  category : String
  description : String
  deadline : Json
  milestones : Json
  email_updates : Json
  id : Option Json

/-- GoalState (schema.py lines 28-34), with node return values read as the
merged LangGraph state. -/
structure GoalState where
  user_id : String
  messages : List Msg
  goals : List Goal
  routines : List (String × List String)
  finished : Bool

/-- The external collaborators: the LLM backend (llm_with_tools.invoke and
the generate_routine tool), the database-backed add_goal / get_goals tools,
datetime.now() and uuid.uuid4(). An `Except Unit` result of `llm` models a
raised exception. -/
structure AiOut where
  content : String
  tool_calls : List ToolCallRec

structure Env where
  llm : String → List Msg → Except Unit AiOut
  gen_routine : String → Int → Json → List String
  add_goal_tool : String → String → String → Json → String → Json → Json → String
  get_goals_tool : String → String
  nowSec : Int
  new_uuid : String

/-- Names of the tools in goal_auto_tools (tools.py lines 476-486). -/
def goal_auto_tool_names : List String :=
  ["add_goal", "get_goals", "generate_routine", "get_goal_progress",
   "get_user_goals", "get_routine_for_goal", "list_goal_tables",
   "describe_goal_table", "execute_goal_query"]

/-- Names of the tools in goal_action_tools (tools.py lines 488-492). -/
def goal_action_tool_names : List String :=
  ["add_goal", "get_goals", "generate_routine"]

def assistantD (c : String) : DictMsg :=
  ⟨some "assistant", some c, false, none, none⟩

def toolCallsDict (tcs : List ToolCallRec) : DictMsg :=
  ⟨none, none, false, none, some tcs⟩

/-! ### goal_action_node (nodes.py lines 315-442) -/

/-- Strict string-valued argument access tool_call.args[k]. A missing key is
a Python KeyError; a non-string value fails later at tool-invocation
validation — both abort the turn. -/
def argStr (args : List (String × Json)) (k : String) : Except String String :=
  match List.lookup k args with
  | some (Json.str s) => Except.ok s
  | some _ => Except.error ("TypeError: " ++ k)
  | none => Except.error ("KeyError: " ++ k)

/-- The milestones normalization of nodes.py lines 354-361: a string is
json.loads-ed (kept even if the result is not a list, per the if/elif
chain), a non-list non-string becomes []. -/
def normalizeMilestones : Json → Json
  | Json.str s =>
    match Json.parse? s with
    | some j => j
    | none => Json.arr []
  | Json.arr xs => Json.arr xs
  | _ => Json.arr []

/-- nodes.py lines 363-371: the deadline is read with .get("deadline", "");
`if deadline:` is Python truthiness, and strptime on a truthy non-string
raises TypeError (uncaught). -/
def daysFromDeadline (dl : Json) (nowSec : Int) : Except String Int :=
  match dl with
  | Json.str s => Except.ok (add_goal_days s nowSec)
  | j => if jsonTruthy j then Except.error "TypeError: strptime" else Except.ok 30

/-- ToolMessage(content=...) validates that the content is a string. -/
def toolContent : Json → Except String String
  | Json.str s => Except.ok s
  | _ => Except.error "ToolMessage content must be a string"

/-- One iteration of the tool_call loop in goal_action_node (nodes.py lines
342-432), returning the response text plus the updated goals and routines;
the caller appends ToolMessage(content=response, name, tool_call_id) (lines
434-440). An unknown tool name raises NotImplementedError (line 432). -/
def run_tool_call (env : Env) (user_id : String) (tc : ToolCallRec)
    (goals : List Goal) (routines : List (String × List String)) :
    Except String (String × List Goal × List (String × List String)) :=
  let args := if hasKey tc.args "user_id" then assocSet tc.args "user_id" (Json.str user_id)
              else tc.args
  if tc.name = "add_goal" then
    match argStr args "title" with
    | Except.error e => Except.error e
    | Except.ok goal_title =>
      match argStr args "category" with
      | Except.error e => Except.error e
      | Except.ok category =>
        match argStr args "description" with
        | Except.error e => Except.error e
        | Except.ok description =>
          let deadline : Json := (List.lookup "deadline" args).getD (Json.str "")
          let milestones : Json := normalizeMilestones ((List.lookup "milestones" args).getD (Json.arr []))
          let email_updates : Json := (List.lookup "email_updates" args).getD (Json.obj [])
          match daysFromDeadline deadline env.nowSec with
          | Except.error e => Except.error e
          | Except.ok days =>
            let goal : Goal := ⟨goal_title, category, description, deadline, milestones, email_updates, none⟩
            let routine := env.gen_routine goal_title days milestones
            let routines' := assocSet routines goal_title routine
            let response := env.add_goal_tool goal_title category description deadline user_id milestones email_updates
            -- parse the add_goal tool's JSON response (nodes.py lines 408-419)
            match Json.parse? response with
            | none =>
              Except.ok ("Error processing goal addition", goals ++ [goal], routines')
            | some rd =>
              match rd with
              | Json.obj rfs =>
                let success : Bool := match List.lookup "status" rfs with
                  | some (Json.str s) => s == "success"
                  | _ => false
                match List.lookup "message" rfs with
                | none => Except.error "KeyError: message"
                | some msgJ =>
                  match toolContent msgJ with
                  | Except.error e => Except.error e
                  | Except.ok respStr =>
                    if success then
                      match List.lookup "goal" rfs with
                      | none => Except.error "KeyError: goal"
                      | some (Json.obj gfs) =>
                        match List.lookup "id" gfs with
                        | none => Except.error "KeyError: id"
                        | some gid =>
                          Except.ok (respStr, goals ++ [{ goal with id := some gid }], routines')
                      | some _ => Except.error "TypeError: goal"
                    else
                      Except.ok (respStr, goals ++ [goal], routines')
              | _ => Except.error "TypeError: status"
  else if tc.name = "get_goals" then
    match argStr args "user_id" with
    | Except.error e => Except.error e
    | Except.ok uid =>
      Except.ok (env.get_goals_tool uid, goals, routines)
  else
    Except.error ("Unknown tool: " ++ tc.name)

/-- The tool_call loop of goal_action_node: one ToolMessage per call,
carrying the originating call id (nodes.py lines 434-440). -/
def run_tool_calls (env : Env) (user_id : String) :
    List ToolCallRec → List Goal → List (String × List String) →
    Except String (List Msg × List Goal × List (String × List String))
  | [], goals, routines => Except.ok ([], goals, routines)
  | tc :: rest, goals, routines =>
    match run_tool_call env user_id tc goals routines with
    | Except.error e => Except.error e
    | Except.ok (response, goals', routines') =>
      match run_tool_calls env user_id rest goals' routines' with
      | Except.error e => Except.error e
      | Except.ok (ms, g2, r2) =>
        Except.ok (Msg.toolMsg response tc.name tc.id :: ms, g2, r2)

def jsonToToolCall : Json → Except String ToolCallRec
  | Json.obj fs =>
    match List.lookup "name" fs, List.lookup "args" fs, List.lookup "id" fs with
    | some (Json.str n), some (Json.obj a), some (Json.str i) => Except.ok ⟨n, a, i⟩
    | _, _, _ => Except.error "TypeError: tool_call"
  | _ => Except.error "TypeError: tool_call"

def jsonToToolCalls : List Json → Except String (List ToolCallRec)
  | [] => Except.ok []
  | j :: rest =>
    match jsonToToolCall j with
    | Except.error e => Except.error e
    | Except.ok tc =>
      match jsonToToolCalls rest with
      | Except.error e => Except.error e
      | Except.ok tcs => Except.ok (tc :: tcs)

/-- The tool_calls extraction of nodes.py lines 322-335: a dict is checked
for a "tool_calls" key, then for JSON content carrying one; an object
contributes its tool_calls attribute (only AIMessage has it). -/
def extract_tool_calls : Msg → Except String (List ToolCallRec)
  | Msg.dict d =>
    match d.tool_calls with
    | some tcs => Except.ok tcs
    | none =>
      match d.content with
      | some s =>
        match Json.parse? s with
        | some (Json.obj fs) =>
          match List.lookup "tool_calls" fs with
          | some (Json.arr js) => jsonToToolCalls js
          | some _ => Except.error "TypeError: tool_calls"
          | none => Except.ok []
        | _ => Except.ok []
      | none => Except.ok []
  | Msg.ai _ tcs => Except.ok tcs
  | _ => Except.ok []

/-- Embeds goal_action_node (nodes.py lines 315-442). The returned state is
the LangGraph-merged result: the `messages` field is replaced by the
outbound ToolMessages (GoalState has no add_messages reducer). -/
def goal_action_node (env : Env) (st : GoalState) : Except String GoalState :=
  match st.messages.getLast? with
  | none => Except.error "IndexError: list index out of range"
  | some tool_msg =>
    match extract_tool_calls tool_msg with
    | Except.error e => Except.error e
    | Except.ok tcs =>
      match run_tool_calls env st.user_id tcs st.goals st.routines with
      | Except.error e => Except.error e
      | Except.ok (outbound, goals', routines') =>
        Except.ok ⟨st.user_id, outbound, goals', routines', st.finished⟩

/-! ### goal_ai_with_tools (nodes.py lines 80-305) -/

/-- nodes.py line 40. -/
def WELCOME_GOAL_MSG : String := "Welcome to the Goal Setter AI. How may I help you today?"

/-- The canned help text used both as the exception fallback (line 287) and
as the empty-output substitute (line 299). -/
def FALLBACK_HELP_MSG : String :=
  "I\x27m here to help you with your goals! You can ask me to:\n- Review your existing goals\n- Add a new goal\n- Track your progress\n- Generate routines for your goals\n\nWhat would you like to do?"

/-- The text of get_system_prompt (nodes.py lines 20-37). -/
def get_system_prompt (user_id : String) : String :=
  "You are GoalSetterAI, a supportive assistant that helps users:" ++
  "- Set personal development goals" ++
  "- Break down goals into daily routines" ++
  "- Log daily progress and track consistency" ++
  "Current user ID: " ++ user_id ++
  "Use the user id to identify the user and their goals. Do not ask the user for their id." ++
  "CRITICAL: You have access to tools. When users ask to review, analyze, or see their goals, you MUST call the get_goals tool with user_id=" ++ user_id ++ "." ++
  "CRITICAL: When users ask to add a new goal, you MUST call the add_goal tool." ++
  "CRITICAL: Do not ask users for information that you can get from tools. Use the tools to retrieve information." ++
  "Available tools: get_goals, add_goal, generate_routine, get_goal_progress, get_user_goals" ++
  "Use tools when the user wants to add, review, or modify goals and routines." ++
  " Always aim to assist the user in staying motivated and organized." ++
  "IMPORTANT: If the user asks to review their goals, immediately call get_goals with user_id=" ++ user_id ++ "."

/-- The message conversion of nodes.py lines 177-189: dicts become
HumanMessage/AIMessage by role (strict key access), ToolMessages are
dropped, other roles are dropped. -/
def convert_messages : List Msg → Except String (List Msg)
  | [] => Except.ok []
  | Msg.dict d :: rest =>
    match d.role with
    | none => Except.error "KeyError: role"
    | some r =>
      if r = "user" then
        match d.content with
        | none => Except.error "KeyError: content"
        | some c => (convert_messages rest).map (fun t => Msg.human c :: t)
      else if r = "assistant" then
        match d.content with
        | none => Except.error "KeyError: content"
        | some c => (convert_messages rest).map (fun t => Msg.ai c [] :: t)
      else convert_messages rest
  | Msg.human c :: rest => (convert_messages rest).map (fun t => Msg.human c :: t)
  | Msg.ai c tcs :: rest => (convert_messages rest).map (fun t => Msg.ai c tcs :: t)
  | Msg.toolMsg _ _ _ :: rest => convert_messages rest

/-- nodes.py line 193: the HumanMessage contents of the converted list. -/
def user_messages (msgs : List Msg) : List String :=
  msgs.filterMap fun m =>
    match m with
    | Msg.human c => some c
    | _ => none

/-- The content-shape checks of nodes.py lines 226-237 applied to the
lowercased last user content (checks 1-3 are vacuous there: the filtered
list holds only HumanMessages). -/
def looks_like_tool_response (content : String) : Bool :=
  (containsSub content "category:" ∧ containsSub content "title:" ∧
   containsSub content "description:" ∧ containsSub content "deadline:") ∨
  strCount content "category:" > 1 ∨
  strCount content "title:" > 1 ∨
  strCount content "progress:" > 1

def review_keywords : List String :=
  ["review", "see", "show", "list", "check", "analyze", "view"]

def goal_keywords : List String := ["goal", "goals"]

/-- The manual-trigger keyword test of nodes.py lines 248-249. -/
def asks_to_review_goals (content : String) : Bool :=
  review_keywords.any (fun k => containsSub content k) ∧
  goal_keywords.any (fun k => containsSub content k)

/-- The empty-output guard of nodes.py lines 296-301. -/
def apply_empty_guard (d : DictMsg) : DictMsg :=
  if (pyStrip (d.content.getD "") = "") then
    { d with content := some FALLBACK_HELP_MSG, is_fallback := true }
  else d

/-- The fallback AssistantText dict of nodes.py line 287 / lines 297-301. -/
def fallback_message : Msg :=
  Msg.dict ⟨some "assistant", some FALLBACK_HELP_MSG, true, none, none⟩

/-- The LLM invocation tail of goal_ai_with_tools (nodes.py lines 277-305):
an exception becomes the fallback dict, an AIMessage is converted to a
role/content dict (dropping its tool_calls, line 290-291), and the empty
guard is applied before appending. -/
def llm_path (env : Env) (st : GoalState) (conv : List Msg) : Except String GoalState :=
  let new_output : DictMsg :=
    match env.llm (get_system_prompt st.user_id) conv with
    | Except.ok out => assistantD out.content
    | Except.error _ => ⟨some "assistant", some FALLBACK_HELP_MSG, true, none, none⟩
  Except.ok ⟨st.user_id, st.messages ++ [Msg.dict (apply_empty_guard new_output)],
             st.goals, st.routines, st.finished⟩

/-- The history-using part of goal_ai_with_tools after the envelope check
(nodes.py lines 175-305, plus the welcome branch of lines 292-294). -/
def goal_ai_main (env : Env) (st : GoalState) : Except String GoalState :=
  if st.messages.isEmpty then
    Except.ok ⟨st.user_id,
               st.messages ++ [Msg.dict (apply_empty_guard (assistantD WELCOME_GOAL_MSG))],
               st.goals, st.routines, st.finished⟩
  else
    match convert_messages st.messages with
    | Except.error e => Except.error e
    | Except.ok conv =>
      match (user_messages conv).getLast? with
      | none => llm_path env st conv
      | some lastUser =>
        let c := pyLower lastUser
        if ¬ looks_like_tool_response c ∧ asks_to_review_goals c then
          -- manual get_goals trigger (nodes.py lines 250-270)
          match goal_action_node env
              ⟨st.user_id,
               [Msg.dict (toolCallsDict [⟨"get_goals", [("user_id", Json.str st.user_id)], env.new_uuid⟩])],
               st.goals, st.routines, false⟩ with
          | Except.error e => Except.error e
          | Except.ok result =>
            match result.messages.head? with
            | none => Except.error "IndexError: list index out of range"
            | some tm =>
              Except.ok ⟨st.user_id, st.messages ++ [tm], result.goals, result.routines, st.finished⟩
        else llm_path env st conv

/-- nodes.py lines 131-137: coerce the first tool-response message to text. -/
def msgContentStr : Msg → String
  | Msg.toolMsg c _ _ => c
  | Msg.dict d => d.content.getD ""
  | Msg.human c => c
  | Msg.ai c _ => c

def required_envelope_fields : List String :=
  ["title", "category", "description", "deadline"]

/-- The direct add_goal envelope branch of goal_ai_with_tools (nodes.py
lines 102-170). Note that every return in this branch carries a
single-message `messages` list, replacing the prior transcript in the
merged state. -/
def handle_add_goal_envelope_args (env : Env) (st : GoalState)
    (args : List (String × Json)) : Except String GoalState :=
  if required_envelope_fields.all (fun k => hasKey args k) then
    match goal_action_node env
        ⟨st.user_id, [Msg.dict (toolCallsDict [⟨"add_goal", args, env.new_uuid⟩])],
         st.goals, st.routines, false⟩ with
    | Except.error e => Except.error e
    | Except.ok result =>
      match result.messages.head? with
      | none => Except.error "IndexError: list index out of range"
      | some tm =>
        let response_content := msgContentStr tm
        let titleText := pyStr ((List.lookup "title" args).getD Json.null)
        match Json.parse? response_content with
        | some (Json.obj rfs) =>
          let success : Bool := match List.lookup "status" rfs with
            | some (Json.str s) => s == "success"
            | _ => false
          if success then
            Except.ok ⟨st.user_id,
              [Msg.dict (assistantD ("✅ Successfully added your goal: " ++ titleText ++
                "\n\n" ++ pyStr ((List.lookup "message" rfs).getD (Json.str ""))))],
              result.goals, result.routines, st.finished⟩
          else
            Except.ok ⟨st.user_id,
              [Msg.dict (assistantD ("❌ " ++
                pyStr ((List.lookup "message" rfs).getD (Json.str "Error adding goal"))))],
              result.goals, result.routines, st.finished⟩
        | some _ => Except.error "AttributeError: get"
        | none =>
          Except.ok ⟨st.user_id, [Msg.dict (assistantD response_content)],
                     result.goals, result.routines, st.finished⟩
  else
    let missing := required_envelope_fields.filter (fun k => ¬ hasKey args k)
    Except.ok ⟨st.user_id,
      [Msg.dict (assistantD ("❌ Missing required fields: " ++ joinWith ", " missing))],
      st.goals, st.routines, st.finished⟩

/-- The args extraction of the envelope branch: message_data.get("args", {})
(nodes.py line 105). -/
def handle_add_goal_envelope (env : Env) (st : GoalState) (md : List (String × Json)) :
    Except String GoalState :=
  handle_add_goal_envelope_args env st
    (match List.lookup "args" md with
     | some (Json.obj fs) => fs
     | _ => [])

/-- Embeds goal_ai_with_tools (nodes.py lines 80-305). A last HumanMessage
whose content parses as a JSON dict with type "add_goal" takes the direct
envelope branch; JSON content of non-dict shape raises AttributeError at
message_data.get (the except clause at line 171 only catches
JSONDecodeError). -/
def goal_ai_with_tools (env : Env) (st : GoalState) : Except String GoalState :=
  match st.messages.getLast? with
  | none => goal_ai_main env st
  | some (Msg.human c) =>
    match Json.parse? c with
    | some (Json.obj md) =>
      let isAddGoal : Bool := match List.lookup "type" md with
        | some (Json.str s) => s == "add_goal"
        | _ => false
      if isAddGoal then handle_add_goal_envelope env st md
      else goal_ai_main env st
    | some _ => Except.error "AttributeError: get"
    | none => goal_ai_main env st
  | some _ => goal_ai_main env st

/-! ### human_node, routers and classifier (nodes.py lines 42-78, 307-313,
444-494; flow.py lines 34-52) -/

/-- Embeds human_node (nodes.py lines 42-78). The websocket send/receive is
modelled away: `text` is the received userSpeech text (the missing-channel
RuntimeError path is a transport concern outside this embedding). Note the
return replaces `messages` with the single new HumanMessage. -/
def human_node (st : GoalState) (text : String) : GoalState :=
  let finished := if ["q", "quit", "exit", "bye"].contains (pyLower text) then true
                  else st.finished
  ⟨st.user_id, [Msg.human text], st.goals, st.routines, finished⟩

inductive Route where
  | goal_ai
  | goal_tools
  | goal_actions
  | human
  | end_
deriving DecidableEq

/-- Embeds maybe_exit_human_node (nodes.py lines 307-313). -/
def maybe_exit_human_node (st : GoalState) : Route :=
  if st.finished then Route.end_ else Route.goal_ai

/-- A dict's tool_call_id tested for Python truthiness (nodes.py line 476). -/
def dict_tool_call_id_truthy (d : DictMsg) : Bool :=
  match d.tool_call_id with
  | some s => s ≠ ""
  | none => false

/-- Embeds maybe_route_goal_tools (nodes.py lines 444-494). Only a
ToolMessage has a tool_call_id attribute and only an AIMessage has a
tool_calls attribute, so the hasattr branches resolve per constructor. -/
def maybe_route_goal_tools (st : GoalState) : Except String Route :=
  match st.messages.getLast? with
  | none => Except.error "No messages found."
  | some msg =>
    if st.finished then Except.ok Route.end_
    else
      match msg with
      | Msg.toolMsg _ _ _ => Except.ok Route.end_
      | Msg.ai _c tcs =>
        if tcs.length > 0 then
          let tool_names := tcs.map (fun tc => tc.name)
          if tool_names.any (fun n => goal_action_tool_names.contains n) then
            Except.ok Route.goal_actions
          else Except.ok Route.goal_tools
        else Except.ok Route.end_
      | Msg.dict d =>
        let content := d.content.getD ""
        if d.is_fallback then Except.ok Route.end_
        else if d.role = some "assistant" then Except.ok Route.end_
        else if dict_tool_call_id_truthy d then Except.ok Route.end_
        else if (Json.parse? content).isSome then Except.ok Route.human
        else Except.ok Route.goal_ai
      | Msg.human c =>
        if (Json.parse? c).isSome then Except.ok Route.human
        else Except.ok Route.goal_ai

inductive StartRoute where
  | goal_ai
  | api
deriving DecidableEq

def contentOfMsg : Msg → String
  | Msg.dict d => d.content.getD ""
  | Msg.human c => c
  | Msg.ai c _ => c
  | Msg.toolMsg c _ _ => c

/-- Embeds route_start (flow.py lines 34-52): an empty message list or
non-JSON content goes to goal_ai; JSON-dict content with a "type" key goes
to the api node. -/
def route_start (st : GoalState) : StartRoute :=
  match st.messages.getLast? with
  | none => StartRoute.goal_ai
  | some last =>
    match Json.parse? (contentOfMsg last) with
    | some (Json.obj fs) => if hasKey fs "type" then StartRoute.api else StartRoute.goal_ai
    | _ => StartRoute.goal_ai

/-! ### api_node (nodes.py lines 496-623) -/

/-- nodes.py lines 534-543: collapse a list of email-update frequencies to
the most granular; non-list values pass through. -/
def collapse_email_updates : Json → Json
  | Json.arr xs =>
    let hasS := fun (w : String) => xs.any (fun e =>
      match e with
      | Json.str s => s == w
      | _ => false)
    if hasS "daily" then Json.str "daily"
    else if hasS "weekly" then Json.str "weekly"
    else if hasS "monthly" then Json.str "monthly"
    else Json.str "never"
  | other => other

/-- nodes.py lines 546-556: milestone cleaning. After normalizeMilestones
the comprehension [str(m).strip() for m in milestones if str(m).strip()]
iterates a list element-wise, a string character-wise, a dict over its
keys, and raises TypeError otherwise. -/
def api_clean_milestones (j : Json) : Except String (List String) :=
  match normalizeMilestones j with
  | Json.arr xs => Except.ok ((xs.map (fun m => pyStrip (pyStr m))).filter (fun s => s ≠ ""))
  | Json.str s =>
    Except.ok (((s.data.map (fun ch => pyStrip (String.mk [ch])))).filter (fun t => t ≠ ""))
  | Json.obj fs => Except.ok ((fs.map (fun kv => pyStrip kv.1)).filter (fun s => s ≠ ""))
  | _ => Except.error "TypeError: milestones iteration"

def dumpsStatusMessage (status msg : String) : String :=
  jsonDumps (Json.obj [("status", Json.str status), ("message", Json.str msg)])

/-- The add_goal request processing of api_node (nodes.py lines 518-613). -/
def api_add_goal (env : Env) (st : GoalState) (args0 : List (String × Json)) :
    Except String GoalState :=
  let missing := (["title", "category", "description"].filter (fun k => ¬ hasKey args0 k))
  if ¬ missing.isEmpty then
    Except.ok ⟨st.user_id,
      [Msg.dict (assistantD (dumpsStatusMessage "error"
        ("Missing required fields: " ++ joinWith ", " missing)))],
      st.goals, st.routines, st.finished⟩
  else
    let p1 := popKey args0 "emailUpdates"
    let email_updates := collapse_email_updates (p1.1.getD (Json.str "never"))
    let p2 := popKey p1.2 "milestones"
    match api_clean_milestones (p2.1.getD (Json.arr [])) with
    | Except.error e => Except.error e
    | Except.ok milestones =>
      let args3 := assocSet p2.2 "user_id" (Json.str st.user_id)
      let args4 := assocSet args3 "milestones" (Json.arr (milestones.map Json.str))
      let args5 := assocSet args4 "email_updates" email_updates
      match goal_action_node env
          ⟨st.user_id, [Msg.dict (toolCallsDict [⟨"add_goal", args5, env.new_uuid⟩])],
           st.goals, st.routines, false⟩ with
      | Except.error e => Except.error e
      | Except.ok result =>
        match result.messages.head? with
        | none => Except.error "IndexError: list index out of range"
        | some m =>
          let titleStr := pyStr ((List.lookup "title" args5).getD Json.null)
          match Json.parse? (msgContentStr m) with
          | none =>
            Except.ok ⟨st.user_id,
              [Msg.dict (assistantD (dumpsStatusMessage "error" "Error processing goal addition"))],
              result.goals, result.routines, result.finished⟩
          | some (Json.obj rfs) =>
            let success : Bool := match List.lookup "status" rfs with
              | some (Json.str s) => s == "success"
              | _ => false
            if success then
              match (List.lookup "goal" rfs).getD (Json.obj []) with
              | Json.obj gfs =>
                let routineJ := (List.lookup "routine" gfs).getD (Json.arr [])
                Except.ok ⟨st.user_id,
                  [Msg.dict (assistantD (jsonDumps (Json.obj
                    [("status", Json.str "success"),
                     ("message", Json.str ("✅ Successfully added your goal: " ++ titleStr)),
                     ("goal", Json.obj gfs), ("routine", routineJ)])))],
                  result.goals, result.routines, result.finished⟩
              | _ => Except.error "AttributeError: get"
            else
              let msgJ := (List.lookup "message" rfs).getD (Json.str "Error adding goal")
              Except.ok ⟨st.user_id,
                [Msg.dict (assistantD (jsonDumps (Json.obj
                  [("status", Json.str "error"), ("message", msgJ)])))],
                result.goals, result.routines, result.finished⟩
          | some _ => Except.error "AttributeError: get"

/-- The request-type dispatch of api_node on the decoded request data. -/
def api_process (env : Env) (st : GoalState) (rd : Json) : Except String GoalState :=
  match rd with
  | Json.obj fs =>
    let isAdd : Bool := match List.lookup "type" fs with
      | some (Json.str s) => s == "add_goal"
      | _ => false
    let rtStr := match List.lookup "type" fs with
      | some j => pyStr j
      | none => "None"
    match (List.lookup "args" fs).getD (Json.obj []) with
    | Json.obj args =>
      if isAdd then api_add_goal env st args
      else
        Except.ok ⟨st.user_id,
          [Msg.dict (assistantD (dumpsStatusMessage "error" ("Unknown request type: " ++ rtStr)))],
          st.goals, st.routines, st.finished⟩
    | _ => Except.error "TypeError: args"
  | _ => Except.error "AttributeError: get"

/-- Embeds api_node (nodes.py lines 496-623). -/
def api_node (env : Env) (st : GoalState) : Except String GoalState :=
  match st.messages.getLast? with
  | none =>
    Except.ok ⟨st.user_id, [Msg.dict (assistantD "No request data provided")],
               st.goals, st.routines, st.finished⟩
  | some request =>
    match request with
    | Msg.dict d =>
      match d.content with
      | none => api_process env st (Json.obj [])
      | some s =>
        match Json.parse? s with
        | none =>
          Except.ok ⟨st.user_id, [Msg.dict (assistantD "Invalid JSON request")],
                     st.goals, st.routines, st.finished⟩
        | some j => api_process env st j
    | other =>
      match Json.parse? (contentOfMsg other) with
      | none => Except.error "json.JSONDecodeError"
      | some j => api_process env st j

/-! ### websocket_handler.py: history trimming and the transport-level
exception wrapper -/

/-- Conversation-history entries are dicts with role and content keys
(websocket_handler.py builds them with both keys always present). -/
structure ChatMsg where
  role : String
  content : String
deriving DecidableEq

/-- Embeds trim_conversation_history (websocket_handler.py lines 47-60).
Python's history[-max_messages:] slice is the whole list when max_messages
is 0. -/
def trim_conversation_history (history : List ChatMsg) (max_messages : Nat) : List ChatMsg :=
  if history.length ≤ max_messages then history
  else
    let trimmed := if max_messages = 0 then history
                   else history.drop (history.length - max_messages)
    match trimmed with
    | [] => []
    | first :: rest => if first.role = "assistant" then rest else first :: rest

structure WsErrorPayload where
  type : String
  message : String
deriving DecidableEq

/-- Embeds the per-message exception handler of handle_connection
(websocket_handler.py lines 425-430): any exception raised while processing
a turn is caught and sent as a structured payload whose type key is
"error" and whose message is str(e). -/
def ws_error_payload (e : String) : WsErrorPayload := ⟨"error", e⟩

/-! ### Concrete fixtures used by witnesses and counterexamples -/

/-- A benign environment: the LLM replies "hi", routine generation yields a
one-line plan, the add_goal tool reports success with goal id 1. -/
def env0 : Env :=
  ⟨fun _ _ => Except.ok ⟨"hi", []⟩,
   fun _ _ _ => ["Day 1: practice"],
   fun _ _ _ _ _ _ _ =>
     "\x7b\"status\": \"success\", \"message\": \"Added goal: T\", \"goal\": \x7b\"id\": 1\x7d\x7d",
   fun _ => "No goals found.",
   0,
   "uuid-1"⟩

/-- An environment whose LLM backend always raises. -/
def env_fail : Env :=
  ⟨fun _ _ => Except.error (),
   fun _ _ _ => ["Day 1: practice"],
   fun _ _ _ _ _ _ _ => "\x7b\"status\": \"error\", \"message\": \"db down\"\x7d",
   fun _ => "No goals found.",
   0,
   "uuid-1"⟩

/-- An environment whose LLM backend returns an empty-content AssistantText. -/
def env_empty : Env :=
  ⟨fun _ _ => Except.ok ⟨"  ", []⟩,
   fun _ _ _ => ["Day 1: practice"],
   fun _ _ _ _ _ _ _ => "\x7b\"status\": \"error\", \"message\": \"db down\"\x7d",
   fun _ => "No goals found.",
   0,
   "uuid-1"⟩

def c1_envelope : String :=
  "\x7b\"type\": \"add_goal\", \"args\": \x7b\"title\": \"T\", \"category\": \"C\", \"description\": \"D\", \"deadline\": \"2030-01-01\"\x7d\x7d"

/-- A two-message transcript whose last message is a direct add_goal
envelope received as a HumanMessage. -/
def c1_state : GoalState :=
  ⟨"u1", [Msg.dict (assistantD WELCOME_GOAL_MSG), Msg.human c1_envelope], [], [], false⟩

/-- The message shapes goal_ai_with_tools can leave as the last transcript
entry: an assistant-role dict or a ToolMessage. -/
def endsTurnMsg : Msg → Bool
  | Msg.dict d => d.role == some "assistant"
  | Msg.toolMsg _ _ _ => true
  | _ => false

/-- An AssistantText without tool calls, in either of its two runtime
representations (assistant-role dict, or AIMessage with empty tool_calls). -/
def isAssistantNoTools : Msg → Bool
  | Msg.ai _ tcs => tcs.isEmpty
  | Msg.dict d => d.role == some "assistant"
  | _ => false

/-- The branch conditions under which goal_ai_with_tools reaches the
llm_with_tools.invoke call (no add_goal envelope, conversion succeeds, the
manual get_goals trigger does not fire). -/
def reaches_llm (st : GoalState) : Bool :=
  match st.messages.getLast? with
  | none => false
  | some last =>
    (match last with
     | Msg.human c => (Json.parse? c).isNone
     | _ => true) &&
    (match convert_messages st.messages with
     | Except.error _ => false
     | Except.ok conv =>
       match (user_messages conv).getLast? with
       | none => true
       | some lastUser =>
         let c := pyLower lastUser
         ! (decide (¬ looks_like_tool_response c ∧ asks_to_review_goals c)))

/-- A state whose last message requests an unknown tool. -/
def c3_state : GoalState :=
  ⟨"u1", [Msg.dict (toolCallsDict [⟨"bogus", [], "id1"⟩])], [], [], false⟩

def c4_content : String := "title: swim title: run"

/-- A user message whose text looks like a rendered tool result (two
"title:" markers). -/
def c4_state : GoalState :=
  ⟨"u1", [Msg.dict ⟨some "user", some c4_content, false, none, none⟩], [], [], false⟩

def c4_human_state : GoalState := ⟨"u1", [Msg.human c4_content], [], [], false⟩

def c2_action_state : GoalState :=
  ⟨"u1", [Msg.ai "" [⟨"add_goal", [], "call1"⟩]], [], [], false⟩

def c2_auto_state : GoalState :=
  ⟨"u1", [Msg.ai "" [⟨"get_user_goals", [], "call1"⟩]], [], [], false⟩

def chat_state : GoalState := ⟨"u1", [Msg.human "hello there"], [], [], false⟩

def finished_state : GoalState := ⟨"u1", [Msg.human "bye"], [], [], true⟩

def empty_state : GoalState := ⟨"u1", [], [], [], false⟩

def hist3 : List ChatMsg := [⟨"user", "a"⟩, ⟨"user", "b"⟩, ⟨"assistant", "c"⟩]

def gg_state : GoalState :=
  ⟨"u2", [Msg.dict (toolCallsDict [⟨"get_goals", [("user_id", Json.str "u2")], "id9"⟩])],
   [], [], false⟩

def api_state : GoalState :=
  ⟨"u3", [Msg.dict ⟨some "user", some "\x7b\"type\": \"ping\"\x7d", false, none, none⟩],
   [], [], false⟩

def c4w_state : GoalState := ⟨"u1", [Msg.human "title: a title: b show goals"], [], [], false⟩

def c3w_state : GoalState :=
  ⟨"u9", [Msg.dict (toolCallsDict [⟨"mystery", [], "id2"⟩])], [], [], false⟩


example : (goal_ai_with_tools env0 c1_state).map (fun r => r.messages.length) =
    Except.ok 1 := by rfl

example : Json.parse? "\x7b\"a\": 1, \"b\": [true, \"x\"]\x7d" =
    some (Json.obj [("a", Json.num 1), ("b", Json.arr [Json.bool true, Json.str "x"])]) := by
  rfl

example : Json.parse? "title: a title: b" = none := by rfl

example : strCount "title: a title: b" "title:" = 2 := by rfl

example : daysFromCivil 1970 1 1 = 0 := by rfl

example : daysFromCivil 2030 1 1 = 21915 := by rfl

example : strptimeYMD "2030-01-01" = some 21915 := by rfl

example : strptimeYMD "not-a-date" = none := by rfl

/-! ### Structural lemmas about the embedded nodes -/

theorem run_tool_calls_shape (env : Env) (uid : String) :
    ∀ (tcs : List ToolCallRec) (g : List Goal) (r : List (String × List String))
      (ms : List Msg) (g2 : List Goal) (r2 : List (String × List String)),
      run_tool_calls env uid tcs g r = Except.ok (ms, g2, r2) →
      ∀ m ∈ ms, ∃ c n i, m = Msg.toolMsg c n i := by
  intro tcs
  induction tcs with
  | nil =>
    intro g r ms g2 r2 h m hm
    simp only [run_tool_calls, Except.ok.injEq, Prod.mk.injEq] at h
    rw [← h.1] at hm
    simp at hm
  | cons tc rest ih =>
    intro g r ms g2 r2 h m hm
    simp only [run_tool_calls] at h
    cases hrc : run_tool_call env uid tc g r with
    | error e => rw [hrc] at h; cases h
    | ok trip =>
      obtain ⟨resp, g', r'⟩ := trip
      rw [hrc] at h
      dsimp only [] at h
      cases hrest : run_tool_calls env uid rest g' r' with
      | error e => rw [hrest] at h; cases h
      | ok trip2 =>
        obtain ⟨ms', g2', r2'⟩ := trip2
        rw [hrest] at h
        dsimp only [] at h
        simp only [Except.ok.injEq, Prod.mk.injEq] at h
        rw [← h.1] at hm
        rcases List.mem_cons.mp hm with hm1 | hm2
        · exact ⟨resp, tc.name, tc.id, hm1⟩
        · exact ih g' r' ms' g2' r2' hrest m hm2

/-- goal_action_node preserves user_id and the finished flag and emits only
ToolMessages. -/
theorem goal_action_node_ok (env : Env) (st r : GoalState)
    (h : goal_action_node env st = Except.ok r) :
    r.user_id = st.user_id ∧ r.finished = st.finished ∧
    ∀ m ∈ r.messages, ∃ c n i, m = Msg.toolMsg c n i := by
  unfold goal_action_node at h
  cases hl : st.messages.getLast? with
  | none => rw [hl] at h; cases h
  | some tm =>
    rw [hl] at h
    dsimp only [] at h
    cases he : extract_tool_calls tm with
    | error e => rw [he] at h; cases h
    | ok tcs =>
      rw [he] at h
      dsimp only [] at h
      cases hrun : run_tool_calls env st.user_id tcs st.goals st.routines with
      | error e => rw [hrun] at h; cases h
      | ok trip =>
        obtain ⟨out, g', r'⟩ := trip
        rw [hrun] at h
        dsimp only [] at h
        injection h with h1
        rw [← h1]
        exact ⟨rfl, rfl, run_tool_calls_shape env st.user_id tcs st.goals st.routines out g' r' hrun⟩

theorem apply_empty_guard_role (d : DictMsg) : (apply_empty_guard d).role = d.role := by
  unfold apply_empty_guard
  split <;> rfl

theorem fallback_pyStrip_ne : pyStrip FALLBACK_HELP_MSG ≠ "" := by decide

theorem welcome_pyStrip_ne : pyStrip WELCOME_GOAL_MSG ≠ "" := by decide

theorem apply_empty_guard_of_blank {c : String} (h : pyStrip c = "") :
    apply_empty_guard (assistantD c) =
      ⟨some "assistant", some FALLBACK_HELP_MSG, true, none, none⟩ := by
  simp [apply_empty_guard, assistantD, h]

theorem apply_empty_guard_of_nonblank {c : String} (h : pyStrip c ≠ "") :
    apply_empty_guard (assistantD c) = assistantD c := by
  simp [apply_empty_guard, assistantD, h]

theorem apply_empty_guard_fallback :
    apply_empty_guard ⟨some "assistant", some FALLBACK_HELP_MSG, true, none, none⟩ =
      ⟨some "assistant", some FALLBACK_HELP_MSG, true, none, none⟩ := by
  unfold apply_empty_guard
  simp [fallback_pyStrip_ne]

/-- llm_path always succeeds and appends exactly one assistant dict with
non-blank content. -/
theorem llm_path_shape (env : Env) (st : GoalState) (conv : List Msg) :
    ∃ d : DictMsg,
      llm_path env st conv =
        Except.ok ⟨st.user_id, st.messages ++ [Msg.dict d], st.goals, st.routines, st.finished⟩ ∧
      d.role = some "assistant" ∧ pyStrip (d.content.getD "") ≠ "" := by
  unfold llm_path
  cases h : env.llm (get_system_prompt st.user_id) conv with
  | error e =>
    refine ⟨_, rfl, ?_, ?_⟩
    · rw [apply_empty_guard_fallback]
    · rw [apply_empty_guard_fallback]
      exact fallback_pyStrip_ne
  | ok out =>
    by_cases hb : pyStrip out.content = ""
    · refine ⟨_, rfl, ?_, ?_⟩
      · rw [apply_empty_guard_of_blank hb]
      · rw [apply_empty_guard_of_blank hb]
        exact fallback_pyStrip_ne
    · refine ⟨_, rfl, ?_, ?_⟩
      · rw [apply_empty_guard_of_nonblank hb]
        rfl
      · rw [apply_empty_guard_of_nonblank hb]
        exact hb

theorem llm_path_fail (env : Env) (st : GoalState) (conv : List Msg)
    (h : env.llm (get_system_prompt st.user_id) conv = Except.error ()) :
    llm_path env st conv =
      Except.ok ⟨st.user_id, st.messages ++ [fallback_message],
                 st.goals, st.routines, st.finished⟩ := by
  unfold llm_path
  rw [h]
  dsimp only []
  rw [show fallback_message = Msg.dict (apply_empty_guard ⟨some "assistant", some FALLBACK_HELP_MSG, true, none, none⟩) from by rw [apply_empty_guard_fallback]; rfl]

theorem llm_path_empty (env : Env) (st : GoalState) (conv : List Msg) (out : AiOut)
    (h : env.llm (get_system_prompt st.user_id) conv = Except.ok out)
    (hb : pyStrip out.content = "") :
    llm_path env st conv =
      Except.ok ⟨st.user_id, st.messages ++ [fallback_message],
                 st.goals, st.routines, st.finished⟩ := by
  unfold llm_path
  rw [h]
  dsimp only []
  rw [show apply_empty_guard (assistantD out.content) = ⟨some "assistant", some FALLBACK_HELP_MSG, true, none, none⟩ from apply_empty_guard_of_blank hb]
  rfl

/-- Every successful run of goal_ai_main appends exactly one message (an
assistant dict or, on the manual get_goals trigger, a ToolMessage) to the
prior transcript and preserves user_id and finished. -/
theorem goal_ai_main_ok_shape (env : Env) (st r : GoalState)
    (h : goal_ai_main env st = Except.ok r) :
    r.user_id = st.user_id ∧ r.finished = st.finished ∧
    ∃ m, r.messages = st.messages ++ [m] ∧ endsTurnMsg m = true := by
  unfold goal_ai_main at h
  by_cases hemp : st.messages.isEmpty
  · rw [if_pos hemp] at h
    injection h with h1
    rw [← h1]
    refine ⟨rfl, rfl, _, rfl, ?_⟩
    simp [endsTurnMsg, apply_empty_guard_role, assistantD]
  · rw [if_neg hemp] at h
    cases hc : convert_messages st.messages with
    | error e => rw [hc] at h; cases h
    | ok conv =>
      rw [hc] at h
      dsimp only [] at h
      cases hu : (user_messages conv).getLast? with
      | none =>
        rw [hu] at h
        obtain ⟨d, hd, hrole, _⟩ := llm_path_shape env st conv
        rw [hd] at h
        injection h with h1
        rw [← h1]
        exact ⟨rfl, rfl, Msg.dict d, rfl, by simp [endsTurnMsg, hrole]⟩
      | some lastUser =>
        rw [hu] at h
        dsimp only [] at h
        split at h
        · -- manual get_goals trigger
          cases hga : goal_action_node env
              ⟨st.user_id,
               [Msg.dict (toolCallsDict [⟨"get_goals", [("user_id", Json.str st.user_id)], env.new_uuid⟩])],
               st.goals, st.routines, false⟩ with
          | error e => rw [hga] at h; cases h
          | ok result =>
            rw [hga] at h
            dsimp only [] at h
            cases hh : result.messages.head? with
            | none => rw [hh] at h; cases h
            | some tm =>
              rw [hh] at h
              injection h with h1
              rw [← h1]
              obtain ⟨_, _, hall⟩ := goal_action_node_ok env _ result hga
              obtain ⟨c, n, i, htm⟩ := hall tm (List.mem_of_mem_head? hh)
              exact ⟨rfl, rfl, tm, rfl, by rw [htm]; rfl⟩
        · obtain ⟨d, hd, hrole, _⟩ := llm_path_shape env st conv
          rw [hd] at h
          injection h with h1
          rw [← h1]
          exact ⟨rfl, rfl, Msg.dict d, rfl, by simp [endsTurnMsg, hrole]⟩

/-- Every successful run of the direct add_goal envelope branch replaces the
transcript with a single assistant dict and preserves finished. -/
theorem handle_add_goal_envelope_args_ok_shape (env : Env) (st : GoalState)
    (args : List (String × Json)) (r : GoalState)
    (h : handle_add_goal_envelope_args env st args = Except.ok r) :
    r.user_id = st.user_id ∧ r.finished = st.finished ∧
    ∃ d : DictMsg, r.messages = [Msg.dict d] ∧ d.role = some "assistant" := by
  unfold handle_add_goal_envelope_args at h
  split at h
  · split at h
    · cases h
    · dsimp only [] at h
      split at h
      · cases h
      · split at h
        · split at h
          · injection h with h1
            rw [← h1]
            exact ⟨rfl, rfl, _, rfl, rfl⟩
          · injection h with h1
            rw [← h1]
            exact ⟨rfl, rfl, _, rfl, rfl⟩
        · cases h
        · injection h with h1
          rw [← h1]
          exact ⟨rfl, rfl, _, rfl, rfl⟩
  · injection h with h1
    rw [← h1]
    exact ⟨rfl, rfl, _, rfl, rfl⟩

theorem handle_add_goal_envelope_ok_shape (env : Env) (st : GoalState)
    (md : List (String × Json)) (r : GoalState)
    (h : handle_add_goal_envelope env st md = Except.ok r) :
    r.user_id = st.user_id ∧ r.finished = st.finished ∧
    ∃ d : DictMsg, r.messages = [Msg.dict d] ∧ d.role = some "assistant" := by
  unfold handle_add_goal_envelope at h
  exact handle_add_goal_envelope_args_ok_shape env st _ r h

/-- Every successful run of goal_ai_with_tools preserves user_id and
finished, and either appends one turn-ending message to the transcript or
(on the envelope branch) replaces it with a single assistant dict. -/
theorem goal_ai_with_tools_ok_shape (env : Env) (st r : GoalState)
    (h : goal_ai_with_tools env st = Except.ok r) :
    r.user_id = st.user_id ∧ r.finished = st.finished ∧
    ((∃ m, r.messages = st.messages ++ [m] ∧ endsTurnMsg m = true) ∨
     (∃ d : DictMsg, r.messages = [Msg.dict d] ∧ d.role = some "assistant")) := by
  unfold goal_ai_with_tools at h
  cases hl : st.messages.getLast? with
  | none =>
    rw [hl] at h
    obtain ⟨h1, h2, m, h3, h4⟩ := goal_ai_main_ok_shape env st r h
    exact ⟨h1, h2, Or.inl ⟨m, h3, h4⟩⟩
  | some last =>
    rw [hl] at h
    cases last with
    | human c =>
      dsimp only [] at h
      cases hp : Json.parse? c with
      | none =>
        rw [hp] at h
        obtain ⟨h1, h2, m, h3, h4⟩ := goal_ai_main_ok_shape env st r h
        exact ⟨h1, h2, Or.inl ⟨m, h3, h4⟩⟩
      | some j =>
        rw [hp] at h
        cases j with
        | obj md =>
          dsimp only [] at h
          split at h
          · obtain ⟨h1, h2, d, h3, h4⟩ := handle_add_goal_envelope_ok_shape env st md r h
            exact ⟨h1, h2, Or.inr ⟨d, h3, h4⟩⟩
          · obtain ⟨h1, h2, m, h3, h4⟩ := goal_ai_main_ok_shape env st r h
            exact ⟨h1, h2, Or.inl ⟨m, h3, h4⟩⟩
        | null => cases h
        | bool b => cases h
        | num n => cases h
        | str s => cases h
        | arr xs => cases h
    | ai c tcs =>
      obtain ⟨h1, h2, m, h3, h4⟩ := goal_ai_main_ok_shape env st r h
      exact ⟨h1, h2, Or.inl ⟨m, h3, h4⟩⟩
    | toolMsg c n i =>
      obtain ⟨h1, h2, m, h3, h4⟩ := goal_ai_main_ok_shape env st r h
      exact ⟨h1, h2, Or.inl ⟨m, h3, h4⟩⟩
    | dict d =>
      obtain ⟨h1, h2, m, h3, h4⟩ := goal_ai_main_ok_shape env st r h
      exact ⟨h1, h2, Or.inl ⟨m, h3, h4⟩⟩

/-- The classifier ends the turn whenever the last message is an
assistant-role dict or a ToolMessage. -/
theorem classify_end_of_endsTurnMsg (st : GoalState) (m : Msg)
    (hl : st.messages.getLast? = some m) (hm : endsTurnMsg m = true) :
    maybe_route_goal_tools st = Except.ok Route.end_ := by
  unfold maybe_route_goal_tools
  rw [hl]
  dsimp only []
  by_cases hf : st.finished
  · simp [hf]
  · simp only [hf, Bool.false_eq_true, if_false, if_neg]
    cases m with
    | toolMsg c n i => rfl
    | human c => simp [endsTurnMsg] at hm
    | ai c tcs => simp [endsTurnMsg] at hm
    | dict d =>
      have hrole : d.role = some "assistant" := by
        simpa [endsTurnMsg] using hm
      dsimp only []
      by_cases hfb : d.is_fallback
      · simp [hfb]
      · simp [hfb, hrole]

theorem classify_finished_end (st : GoalState) (hf : st.finished = true)
    (hne : st.messages ≠ []) :
    maybe_route_goal_tools st = Except.ok Route.end_ := by
  rcases List.eq_nil_or_concat st.messages with hcon | ⟨L, b, hcon⟩
  · exact absurd hcon hne
  · unfold maybe_route_goal_tools
    rw [hcon, List.concat_eq_append, List.getLast?_concat]
    simp [hf]

/-- C7: whenever the last message is an AssistantText without tool calls —
dict form or AIMessage form, fallback-flagged or not — the classifier
returns End rather than routing back to Reasoning; moreover every
successful goal_ai_with_tools output classifies straight to End, so the
assistant can never answer its own output. -/
theorem assistant_text_never_refed :
    (∀ (st : GoalState) (m : Msg), st.messages.getLast? = some m →
       isAssistantNoTools m = true → maybe_route_goal_tools st = Except.ok Route.end_) ∧
    (∀ (env : Env) (st r : GoalState), goal_ai_with_tools env st = Except.ok r →
       maybe_route_goal_tools r = Except.ok Route.end_) := by
  constructor
  · intro st m hl hm
    cases m with
    | ai c tcs =>
      have htcs : tcs = [] := by
        simpa [isAssistantNoTools, List.isEmpty_iff] using hm
      unfold maybe_route_goal_tools
      rw [hl]
      dsimp only []
      by_cases hf : st.finished
      · simp [hf]
      · simp [hf, htcs]
    | dict d =>
      exact classify_end_of_endsTurnMsg st _ hl (by simpa [isAssistantNoTools, endsTurnMsg] using hm)
    | human c => simp [isAssistantNoTools] at hm
    | toolMsg c n i => simp [isAssistantNoTools] at hm
  · intro env st r h
    obtain ⟨_, _, hshape⟩ := goal_ai_with_tools_ok_shape env st r h
    rcases hshape with ⟨m, hmm, hend⟩ | ⟨d, hmm, hrole⟩
    · exact classify_end_of_endsTurnMsg r m (by rw [hmm]; exact List.getLast?_concat _) hend
    · refine classify_end_of_endsTurnMsg r (Msg.dict d) ?_ (by simp [endsTurnMsg, hrole])
      rw [hmm]
      rfl

theorem assistant_text_never_refed_witness :
    maybe_route_goal_tools ⟨"u", [Msg.dict (assistantD "hello")], [], [], false⟩ =
      Except.ok Route.end_ ∧
    maybe_route_goal_tools
        ⟨"u1", [Msg.human "hello there", Msg.dict (assistantD "hi")], [], [], false⟩ =
      Except.ok Route.end_ := by
  constructor
  · exact assistant_text_never_refed.1 _ (Msg.dict (assistantD "hello")) rfl rfl
  · exact assistant_text_never_refed.2 env0 chat_state
      ⟨"u1", [Msg.human "hello there", Msg.dict (assistantD "hi")], [], [], false⟩ rfl

/-- C2: when the last message is an AssistantText carrying one or more tool
calls, the classifier routes to ActionExec (goal_actions) exactly when some
requested name is in the registered action-tool set, and to ToolExec
(goal_tools) otherwise. -/
theorem classifier_routes_tool_calls_by_action_set (st : GoalState) (c : String)
    (tcs : List ToolCallRec)
    (hlast : st.messages.getLast? = some (Msg.ai c tcs))
    (hne : tcs ≠ []) (hfin : st.finished = false) :
    maybe_route_goal_tools st =
      Except.ok
        (if (tcs.map (fun tc => tc.name)).any (fun n => goal_action_tool_names.contains n)
         then Route.goal_actions else Route.goal_tools) := by
  unfold maybe_route_goal_tools
  rw [hlast]
  dsimp only []
  have hlen : tcs.length > 0 := List.length_pos.mpr hne
  simp only [hfin, Bool.false_eq_true, if_false, hlen, if_true, if_pos]
  split <;> rfl

theorem classifier_routes_tool_calls_by_action_set_witness :
    maybe_route_goal_tools c2_action_state = Except.ok Route.goal_actions ∧
    maybe_route_goal_tools c2_auto_state = Except.ok Route.goal_tools := by
  constructor
  · exact (classifier_routes_tool_calls_by_action_set c2_action_state ""
      [⟨"add_goal", [], "call1"⟩] rfl (List.cons_ne_nil _ _) rfl).trans rfl
  · exact (classifier_routes_tool_calls_by_action_set c2_auto_state ""
      [⟨"get_user_goals", [], "call1"⟩] rfl (List.cons_ne_nil _ _) rfl).trans rfl

theorem api_add_goal_no_finish (env : Env) (st : GoalState)
    (args0 : List (String × Json)) (r : GoalState)
    (h : api_add_goal env st args0 = Except.ok r) :
    r.finished = true → st.finished = true := by
  unfold api_add_goal at h
  dsimp only [] at h
  split at h
  · injection h with h1
    rw [← h1]
    exact fun hh => hh
  · split at h
    · cases h
    · split at h
      · cases h
      · rename_i milestones hms result hga
        have hrf : result.finished = false :=
          (goal_action_node_ok env _ result hga).2.1
        split at h
        · cases h
        · split at h
          · injection h with h1
            rw [← h1]
            intro hh
            rw [hrf] at hh
            cases hh
          · split at h
            · split at h
              · injection h with h1
                rw [← h1]
                intro hh
                rw [hrf] at hh
                cases hh
              · cases h
            · injection h with h1
              rw [← h1]
              intro hh
              rw [hrf] at hh
              cases hh
          · cases h

theorem api_process_no_finish (env : Env) (st : GoalState) (rd : Json) (r : GoalState)
    (h : api_process env st rd = Except.ok r) :
    r.finished = true → st.finished = true := by
  unfold api_process at h
  dsimp only [] at h
  split at h
  · split at h
    · split at h
      · exact api_add_goal_no_finish env st _ r h
      · injection h with h1
        rw [← h1]
        exact fun hh => hh
    · cases h
  · cases h

/-- api_node never sets the finished flag: a finished result implies the
input was already finished. -/
theorem api_node_no_finish (env : Env) (st : GoalState) (r : GoalState)
    (h : api_node env st = Except.ok r) :
    r.finished = true → st.finished = true := by
  unfold api_node at h
  split at h
  · injection h with h1
    rw [← h1]
    exact fun hh => hh
  · split at h
    · split at h
      · exact api_process_no_finish env st _ r h
      · split at h
        · injection h with h1
          rw [← h1]
          exact fun hh => hh
        · exact api_process_no_finish env st _ r h
    · split at h
      · cases h
      · exact api_process_no_finish env st _ r h

/-- C5: a case-insensitive exit keyword in the Human-Wait node sets
finished; a non-keyword leaves it unchanged; once finished, both
classifiers return End (given a nonempty transcript); and no other node
sets finished, so the exit keywords are the sole path to termination. -/
theorem exit_keyword_sole_termination (env : Env) (st : GoalState) (text : String) :
    (["q", "quit", "exit", "bye"].contains (pyLower text) = true →
       (human_node st text).finished = true) ∧
    (["q", "quit", "exit", "bye"].contains (pyLower text) = false →
       (human_node st text).finished = st.finished) ∧
    (st.finished = true → st.messages ≠ [] →
       maybe_route_goal_tools st = Except.ok Route.end_) ∧
    (st.finished = true → maybe_exit_human_node st = Route.end_) ∧
    (∀ r, goal_ai_with_tools env st = Except.ok r → r.finished = st.finished) ∧
    (∀ r, goal_action_node env st = Except.ok r → r.finished = st.finished) ∧
    (∀ r, api_node env st = Except.ok r → r.finished = true → st.finished = true) := by
  refine ⟨?_, ?_, ?_, ?_, ?_, ?_, ?_⟩
  · intro hkw
    unfold human_node
    simp only [hkw]
    rfl
  · intro hkw
    unfold human_node
    simp only [hkw]
    rfl
  · exact fun hf hne => classify_finished_end st hf hne
  · intro hf
    unfold maybe_exit_human_node
    simp [hf]
  · exact fun r h => (goal_ai_with_tools_ok_shape env st r h).2.1
  · exact fun r h => (goal_action_node_ok env st r h).2.1
  · exact fun r h => api_node_no_finish env st r h

theorem exit_keyword_sole_termination_witness :
    (human_node ⟨"u1", [Msg.human "x"], [], [], false⟩ "BYE").finished = true ∧
    (human_node ⟨"u1", [Msg.human "x"], [], [], false⟩ "hello").finished = false ∧
    maybe_route_goal_tools finished_state = Except.ok Route.end_ ∧
    maybe_exit_human_node finished_state = Route.end_ ∧
    (⟨"u1", [Msg.human "hello there", Msg.dict (assistantD "hi")], [], [], false⟩ :
      GoalState).finished = chat_state.finished ∧
    (⟨"u2", [Msg.toolMsg "No goals found." "get_goals" "id9"], [], [], false⟩ :
      GoalState).finished = gg_state.finished ∧
    ((⟨"u3", [Msg.dict (assistantD (dumpsStatusMessage "error" "Unknown request type: ping"))],
       [], [], false⟩ : GoalState).finished = true → api_state.finished = true) := by
  refine ⟨?_, ?_, ?_, ?_, ?_, ?_, ?_⟩
  · exact (exit_keyword_sole_termination env0 ⟨"u1", [Msg.human "x"], [], [], false⟩ "BYE").1 rfl
  · exact (exit_keyword_sole_termination env0 ⟨"u1", [Msg.human "x"], [], [], false⟩ "hello").2.1 rfl
  · exact (exit_keyword_sole_termination env0 finished_state "x").2.2.1 rfl
      (List.cons_ne_nil _ _)
  · exact (exit_keyword_sole_termination env0 finished_state "x").2.2.2.1 rfl
  · exact (exit_keyword_sole_termination env0 chat_state "x").2.2.2.2.1 _ rfl
  · exact (exit_keyword_sole_termination env0 gg_state "x").2.2.2.2.2.1 _ rfl
  · exact (exit_keyword_sole_termination env0 api_state "x").2.2.2.2.2.2 _ rfl

/-- When the reaches_llm branch conditions hold, goal_ai_with_tools is
exactly the llm_path on the converted history. -/
theorem goal_ai_reaches_llm (env : Env) (st : GoalState) (h : reaches_llm st = true) :
    ∃ conv, convert_messages st.messages = Except.ok conv ∧
      goal_ai_with_tools env st = llm_path env st conv := by
  unfold reaches_llm at h
  cases hl : st.messages.getLast? with
  | none => rw [hl] at h; cases h
  | some last =>
    rw [hl] at h
    dsimp only [] at h
    rw [Bool.and_eq_true] at h
    obtain ⟨h1, h2⟩ := h
    cases hc : convert_messages st.messages with
    | error e => rw [hc] at h2; cases h2
    | ok conv =>
      rw [hc] at h2
      dsimp only [] at h2
      refine ⟨conv, rfl, ?_⟩
      have hne : st.messages ≠ [] := by
        intro hnil
        rw [hnil] at hl
        cases hl
      have hnotempty : st.messages.isEmpty = false := by
        simpa [List.isEmpty_iff] using hne
      have hmain : goal_ai_main env st = llm_path env st conv := by
        unfold goal_ai_main
        rw [hnotempty, hc]
        simp only [Bool.false_eq_true, if_false]
        cases hu : (user_messages conv).getLast? with
        | none => rfl
        | some lastUser =>
          rw [hu] at h2
          dsimp only [] at h2
          have hcond :
              ¬ (¬ looks_like_tool_response (pyLower lastUser) = true ∧
                 asks_to_review_goals (pyLower lastUser) = true) := by
            cases hb : decide (¬ looks_like_tool_response (pyLower lastUser) = true ∧
                asks_to_review_goals (pyLower lastUser) = true) with
            | false => exact of_decide_eq_false hb
            | true => rw [hb] at h2; cases h2
          dsimp only []
          rw [if_neg hcond]
      unfold goal_ai_with_tools
      rw [hl]
      cases last with
      | human c =>
        have hp : Json.parse? c = none := by
          have h1' : (Json.parse? c).isNone = true := by simpa using h1
          exact Option.isNone_iff_eq_none.mp h1'
        dsimp only []
        rw [hp]
        exact hmain
      | ai c tcs => exact hmain
      | toolMsg c n i => exact hmain
      | dict d => exact hmain

/-- C6: on any invocation that reaches the reasoning backend, the appended
message is an assistant dict with non-blank content; if the backend raises,
the appended message is the fixed fallback dict with is_fallback set; if the
backend returns an AssistantText whose content is blank, the canned help
message is substituted with is_fallback set. -/
theorem reasoning_node_fallback_contract (env : Env) (st : GoalState)
    (h : reaches_llm st = true) :
    (∃ d : DictMsg, (goal_ai_with_tools env st).map GoalState.messages =
        Except.ok (st.messages ++ [Msg.dict d]) ∧
      d.role = some "assistant" ∧ pyStrip (d.content.getD "") ≠ "") ∧
    ((∀ s ms, env.llm s ms = Except.error ()) →
      (goal_ai_with_tools env st).map GoalState.messages =
        Except.ok (st.messages ++ [fallback_message])) ∧
    ((∀ s ms out, env.llm s ms = Except.ok out → pyStrip out.content = "") →
      (goal_ai_with_tools env st).map GoalState.messages =
        Except.ok (st.messages ++ [fallback_message])) := by
  obtain ⟨conv, hc, heq⟩ := goal_ai_reaches_llm env st h
  refine ⟨?_, ?_, ?_⟩
  · obtain ⟨d, hd, hrole, hne⟩ := llm_path_shape env st conv
    refine ⟨d, ?_, hrole, hne⟩
    rw [heq, hd]
    rfl
  · intro hfail
    rw [heq, llm_path_fail env st conv (hfail _ _)]
    rfl
  · intro hempty
    cases hl : env.llm (get_system_prompt st.user_id) conv with
    | error e =>
      cases e
      rw [heq, llm_path_fail env st conv hl]
      rfl
    | ok out =>
      rw [heq, llm_path_empty env st conv out hl (hempty _ _ out hl)]
      rfl

theorem reasoning_node_fallback_contract_witness :
    (goal_ai_with_tools env_fail chat_state).map GoalState.messages =
      Except.ok (chat_state.messages ++ [fallback_message]) ∧
    (goal_ai_with_tools env_empty chat_state).map GoalState.messages =
      Except.ok (chat_state.messages ++ [fallback_message]) ∧
    (∃ d : DictMsg, (goal_ai_with_tools env0 chat_state).map GoalState.messages =
        Except.ok (chat_state.messages ++ [Msg.dict d]) ∧
      d.role = some "assistant" ∧ pyStrip (d.content.getD "") ≠ "") := by
  refine ⟨?_, ?_, ?_⟩
  · exact (reasoning_node_fallback_contract env_fail chat_state (by rfl)).2.1
      (fun _ _ => rfl)
  · refine (reasoning_node_fallback_contract env_empty chat_state (by rfl)).2.2 ?_
    intro s ms out hout
    injection hout with h1
    rw [← h1]
    rfl
  · exact (reasoning_node_fallback_contract env0 chat_state (by rfl)).1

theorem convert_messages_append_human (L : List Msg) (c : String) :
    convert_messages (L ++ [Msg.human c]) =
      (convert_messages L).map (fun t => t ++ [Msg.human c]) := by
  induction L with
  | nil => rfl
  | cons m rest ih =>
    cases m with
    | human c2 =>
      simp only [List.cons_append, convert_messages, List.append_eq, ih]
      cases convert_messages rest <;> rfl
    | ai c2 tcs =>
      simp only [List.cons_append, convert_messages, List.append_eq, ih]
      cases convert_messages rest <;> rfl
    | toolMsg c2 n i =>
      simp only [List.cons_append, convert_messages, List.append_eq, ih]
    | dict d =>
      simp only [List.cons_append, convert_messages]
      cases d.role with
      | none => rfl
      | some rr =>
        by_cases hu : rr = "user"
        · simp only [if_pos hu]
          cases d.content with
          | none => rfl
          | some cc =>
            simp only [List.append_eq, ih]
            cases convert_messages rest <;> rfl
        · by_cases ha : rr = "assistant"
          · simp only [if_neg hu, if_pos ha]
            cases d.content with
            | none => rfl
            | some cc =>
              simp only [List.append_eq, ih]
              cases convert_messages rest <;> rfl
          · simp only [if_neg hu, if_neg ha]
            exact ih

theorem user_messages_append (l1 l2 : List Msg) :
    user_messages (l1 ++ l2) = user_messages l1 ++ user_messages l2 := by
  unfold user_messages
  exact List.filterMap_append _ _ _

/-- C4 counterexample: a user message containing two "title:" markers is
routed by the classifier to Reasoning (goal_ai), not short-circuited to
End. -/
theorem marker_heavy_message_routes_to_reasoning :
    strCount (pyLower c4_content) "title:" = 2 ∧
    maybe_route_goal_tools c4_state = Except.ok Route.goal_ai ∧
    maybe_route_goal_tools c4_state ≠ Except.ok Route.end_ := by
  refine ⟨rfl, rfl, ?_⟩
  intro hcon
  have hgoal : Except.ok Route.goal_ai = (Except.ok Route.end_ : Except String Route) :=
    (rfl : maybe_route_goal_tools c4_state = Except.ok Route.goal_ai).symm.trans hcon
  injection hgoal with h1
  cases h1

/-- C4 amended: the marker heuristic lives in the Reasoning node, not the
classifier. On a last plain-text user message whose lowercased content
matches the tool-result shape, the manual get_goals trigger is suppressed
and the node still takes the LLM path, appending one assistant dict. -/
theorem marker_heavy_message_suppresses_manual_trigger (env : Env) (st : GoalState)
    (c : String)
    (hlast : st.messages.getLast? = some (Msg.human c))
    (hparse : Json.parse? c = none)
    (hmark : looks_like_tool_response (pyLower c) = true)
    (hokc : ∃ conv, convert_messages st.messages = Except.ok conv) :
    ∃ d : DictMsg, (goal_ai_with_tools env st).map GoalState.messages =
      Except.ok (st.messages ++ [Msg.dict d]) ∧ d.role = some "assistant" := by
  obtain ⟨conv, hcv⟩ := hokc
  rcases List.eq_nil_or_concat st.messages with hnil | ⟨L, b, hcat⟩
  · rw [hnil] at hlast; cases hlast
  · rw [List.concat_eq_append] at hcat
    have hb : b = Msg.human c := by
      rw [hcat, List.getLast?_concat] at hlast
      injection hlast
    subst hb
    have hlu : (user_messages conv).getLast? = some c := by
      rw [hcat, convert_messages_append_human] at hcv
      cases hcl : convert_messages L with
      | error e => rw [hcl] at hcv; cases hcv
      | ok cl =>
        rw [hcl] at hcv
        injection hcv with h1
        rw [← h1, user_messages_append]
        exact List.getLast?_concat _
    have hreach : reaches_llm st = true := by
      unfold reaches_llm
      rw [hlast]
      dsimp only []
      rw [Bool.and_eq_true]
      constructor
      · rw [hparse]
        rfl
      · rw [hcv]
        dsimp only []
        rw [hlu]
        dsimp only []
        simp [hmark]
    obtain ⟨conv', _, heq⟩ := goal_ai_reaches_llm env st hreach
    obtain ⟨d, hd, hrole, _⟩ := llm_path_shape env st conv'
    refine ⟨d, ?_, hrole⟩
    rw [heq, hd]
    rfl

theorem marker_heavy_message_suppresses_manual_trigger_witness :
    ∃ d : DictMsg, (goal_ai_with_tools env0 c4w_state).map GoalState.messages =
      Except.ok (c4w_state.messages ++ [Msg.dict d]) ∧ d.role = some "assistant" :=
  marker_heavy_message_suppresses_manual_trigger env0 c4w_state
    "title: a title: b show goals" rfl rfl rfl ⟨[Msg.human "title: a title: b show goals"], rfl⟩

/-- C1 counterexample: a direct add_goal envelope shrinks the transcript
from two messages to one — the Reasoning node's envelope branch replaces
the history instead of appending. -/
theorem reasoning_node_truncates_on_add_goal_envelope :
    c1_state.messages.length = 2 ∧
    (goal_ai_with_tools env0 c1_state).map (fun r => r.messages.length) =
      Except.ok 1 := ⟨rfl, rfl⟩

/-- C1 amended: on a plain (non-JSON) user message the Reasoning node
appends exactly one message to the prior transcript. -/
theorem reasoning_node_appends_one_on_plain_chat (env : Env) (st : GoalState)
    (c : String)
    (hlast : st.messages.getLast? = some (Msg.human c))
    (hparse : Json.parse? c = none)
    (hok : (goal_ai_with_tools env st).isOk = true) :
    ∃ m, (goal_ai_with_tools env st).map GoalState.messages =
      Except.ok (st.messages ++ [m]) := by
  have htop : goal_ai_with_tools env st = goal_ai_main env st := by
    unfold goal_ai_with_tools
    rw [hlast]
    dsimp only []
    rw [hparse]
  rw [htop] at hok ⊢
  cases hm : goal_ai_main env st with
  | error e =>
    rw [hm] at hok
    simp [Except.isOk, Except.toBool] at hok
  | ok r =>
    obtain ⟨_, _, m, hmm, _⟩ := goal_ai_main_ok_shape env st r hm
    exact ⟨m, by simp [Except.map, hmm]⟩

theorem reasoning_node_appends_one_on_plain_chat_witness :
    ∃ m, (goal_ai_with_tools env0 chat_state).map GoalState.messages =
      Except.ok (chat_state.messages ++ [m]) :=
  reasoning_node_appends_one_on_plain_chat env0 chat_state "hello there" rfl rfl rfl

/-- C3 counterexample: an unrecognized tool name makes goal_action_node
raise NotImplementedError — no error ToolResult is synthesized and no state
is returned. -/
theorem unknown_tool_raises_uncaught :
    goal_action_node env0 c3_state = Except.error "Unknown tool: bogus" ∧
    (goal_action_node env0 c3_state).isOk = false := ⟨rfl, rfl⟩

/-- C3 amended: an unrecognized tool name aborts the turn by raising
NotImplementedError("Unknown tool: ..."); the websocket handler catches the
exception and returns it as a structured error payload, so no bare
exception crosses the transport boundary. -/
theorem unknown_tool_aborts_turn_with_wrapped_error (env : Env) (st : GoalState)
    (tc : ToolCallRec)
    (hlast : st.messages.getLast? = some (Msg.dict (toolCallsDict [tc])))
    (h1 : ¬ tc.name = "add_goal") (h2 : ¬ tc.name = "get_goals") :
    goal_action_node env st = Except.error ("Unknown tool: " ++ tc.name) ∧
    ws_error_payload ("Unknown tool: " ++ tc.name) =
      ⟨"error", "Unknown tool: " ++ tc.name⟩ := by
  refine ⟨?_, rfl⟩
  unfold goal_action_node
  rw [hlast]
  dsimp only []
  have hrun : run_tool_call env st.user_id tc st.goals st.routines =
      Except.error ("Unknown tool: " ++ tc.name) := by
    unfold run_tool_call
    dsimp only []
    rw [if_neg h1, if_neg h2]
  show (match run_tool_calls env st.user_id [tc] st.goals st.routines with
        | Except.error e => Except.error e
        | Except.ok (outbound, goals', routines') =>
          Except.ok (⟨st.user_id, outbound, goals', routines', st.finished⟩ : GoalState)) =
      Except.error ("Unknown tool: " ++ tc.name)
  simp only [run_tool_calls, hrun]

theorem unknown_tool_aborts_turn_with_wrapped_error_witness :
    goal_action_node env0 c3w_state = Except.error "Unknown tool: mystery" ∧
    ws_error_payload "Unknown tool: mystery" = ⟨"error", "Unknown tool: mystery"⟩ :=
  unknown_tool_aborts_turn_with_wrapped_error env0 c3w_state ⟨"mystery", [], "id2"⟩
    rfl (by decide) (by decide)

/-- C8: the deadline-to-days computation defaults to 30 on an absent or
unparseable deadline, equals max(1, floor((deadline - now) / 1 day)) on a
parsed one, and is always at least 1. -/
theorem add_goal_days_defaults_and_lower_bound (s : String) (now : Int) :
    (s = "" → add_goal_days s now = 30) ∧
    (strptimeYMD s = none → add_goal_days s now = 30) ∧
    (∀ dl, strptimeYMD s = some dl →
       add_goal_days s now = max 1 (Int.fdiv (dl * 86400 - now) 86400)) ∧
    1 ≤ add_goal_days s now := by
  unfold add_goal_days
  by_cases hs : s = ""
  · rw [if_pos hs]
    refine ⟨fun _ => rfl, fun _ => rfl, ?_, by norm_num⟩
    intro dl hdl
    rw [hs] at hdl
    cases (rfl : strptimeYMD "" = none).symm.trans hdl
  · rw [if_neg hs]
    cases hp : strptimeYMD s with
    | none =>
      refine ⟨fun h => absurd h hs, fun _ => rfl, ?_, (by norm_num : (1 : Int) ≤ 30)⟩
      intro dl hdl
      cases hdl
    | some dl0 =>
      refine ⟨fun h => absurd h hs, ?_, ?_, ?_⟩
      · intro hn
        cases hn
      · intro dl hdl
        injection hdl with h1
        rw [h1]
      · exact le_max_left 1 _

theorem add_goal_days_defaults_and_lower_bound_witness :
    add_goal_days "" 0 = 30 ∧
    add_goal_days "not-a-date" 0 = 30 ∧
    add_goal_days "2030-01-01" 0 = max 1 (Int.fdiv (21915 * 86400 - 0) 86400) ∧
    add_goal_days "2020-01-05" 2000000000 = 1 ∧
    1 ≤ add_goal_days "2020-01-05" 2000000000 :=
  ⟨(add_goal_days_defaults_and_lower_bound "" 0).1 rfl,
   (add_goal_days_defaults_and_lower_bound "not-a-date" 0).2.1 rfl,
   (add_goal_days_defaults_and_lower_bound "2030-01-01" 0).2.2.1 21915 rfl,
   by rfl,
   (add_goal_days_defaults_and_lower_bound "2020-01-05" 2000000000).2.2.2⟩

/-- C9: an empty inbound message list is routed to the reasoning node, which
returns exactly one assistant message carrying the fixed welcome text and
does not depend on the reasoning backend. -/
theorem empty_session_welcome (env env' : Env) (st : GoalState)
    (h : st.messages = []) :
    route_start st = StartRoute.goal_ai ∧
    goal_ai_with_tools env st =
      Except.ok ⟨st.user_id, [Msg.dict (assistantD WELCOME_GOAL_MSG)],
                 st.goals, st.routines, st.finished⟩ ∧
    goal_ai_with_tools env st = goal_ai_with_tools env' st := by
  obtain ⟨uid, msgs, gs, rs, fin⟩ := st
  have h2 : msgs = [] := h
  subst h2
  have hwelc : ∀ e : Env, goal_ai_with_tools e ⟨uid, [], gs, rs, fin⟩ =
      Except.ok ⟨uid, [Msg.dict (assistantD WELCOME_GOAL_MSG)], gs, rs, fin⟩ :=
    fun e => rfl
  exact ⟨rfl, hwelc env, (hwelc env).trans (hwelc env').symm⟩

theorem empty_session_welcome_witness :
    route_start empty_state = StartRoute.goal_ai ∧
    goal_ai_with_tools env0 empty_state =
      Except.ok ⟨"u1", [Msg.dict (assistantD WELCOME_GOAL_MSG)], [], [], false⟩ ∧
    goal_ai_with_tools env0 empty_state = goal_ai_with_tools env_fail empty_state :=
  empty_session_welcome env0 env_fail empty_state rfl

/-- C10: trimming returns a contiguous suffix of at most max_messages
entries (for positive max_messages) and returns short histories unchanged. -/
theorem trim_history_suffix_bound_identity (history : List ChatMsg) (m : Nat)
    (hm : 0 < m) :
    trim_conversation_history history m <:+ history ∧
    (trim_conversation_history history m).length ≤ m ∧
    (history.length ≤ m → trim_conversation_history history m = history) := by
  unfold trim_conversation_history
  by_cases hle : history.length ≤ m
  · rw [if_pos hle]
    exact ⟨List.suffix_refl _, hle, fun _ => rfl⟩
  · rw [if_neg hle]
    have hm0 : m ≠ 0 := Nat.pos_iff_ne_zero.mp hm
    rw [if_neg hm0]
    dsimp only []
    have hlen : (history.drop (history.length - m)).length = m := by
      rw [List.length_drop]
      omega
    have hsuf : history.drop (history.length - m) <:+ history := List.drop_suffix _ _
    cases hd : history.drop (history.length - m) with
    | nil =>
      exact ⟨List.nil_suffix, by simp, fun hc => absurd hc hle⟩
    | cons first rest =>
      rw [hd] at hlen hsuf
      dsimp only []
      by_cases hr : first.role = "assistant"
      · rw [if_pos hr]
        refine ⟨(List.suffix_cons first rest).trans hsuf, ?_, fun hc => absurd hc hle⟩
        simp only [List.length_cons] at hlen
        omega
      · rw [if_neg hr]
        exact ⟨hsuf, le_of_eq hlen, fun hc => absurd hc hle⟩

theorem trim_history_suffix_bound_identity_witness :
    trim_conversation_history hist3 2 <:+ hist3 ∧
    (trim_conversation_history hist3 2).length ≤ 2 ∧
    trim_conversation_history hist3 20 = hist3 := by
  obtain ⟨h1, h2, _⟩ := trim_history_suffix_bound_identity hist3 2 (by decide)
  obtain ⟨_, _, h3⟩ := trim_history_suffix_bound_identity hist3 20 (by decide)
  exact ⟨h1, h2, h3 (by decide)⟩

end StepwiseAI
